import Mathlib

/-!
Shallow embedding of `src/API_Integration_Workday.py` (class `WorkdayAPIntegration`).

Modelling conventions:
* Python exceptions are values of `PyErr`; a function that can raise returns `Except PyErr _`.
  The source raises only the built-in `Exception` (constructor `.exception` with its message),
  the built-in `KeyError` from dictionary lookups (constructor `.keyError` with the key),
  and the built-in `TypeError` from an unsupported comparison (constructor `.typeError`).
* `datetime.datetime` values and `float` Unix timestamps are both points on one real clock,
  modelled as `Rat`, but tagged by `PyTime.dt` / `PyTime.ts` because Python refuses to
  compare a `float` with a `datetime` (the comparison raises `TypeError`).
* JSON values are `JVal`; Python `dict` literals preserve insertion order, so objects are
  ordered association lists.  JSON numbers are exact rationals (`.num`) or integers (`.int`);
  no arithmetic is performed on amounts in the source, so no floating-point rounding arises.
* The HTTP transport is an oracle: each call site takes the outcome the network would
  produce (`AuthOutcome` / `OpOutcome`).  `requests.post/get/put` and the log records are
  recorded in an event trace (`Event`).
* `response.raise_for_status()` raises exactly for status codes `400 ≤ s < 600`, with
  requests' message format.  `response.json()` decode failures raise
  `requests.exceptions.JSONDecodeError`, which (requests ≥ 2.27) is a `RequestException`
  and hence is caught by the `except requests.RequestException` handlers.
* `requests` request dictionaries for the token-endpoint JSON body are modelled
  structurally by `TokenBody`, holding the two fields the code reads.
-/

/-- Python exception values as raised by the source file. -/
inductive PyErr where
  | keyError (key : String)
  | typeError (msg : String)
  | exception (msg : String)
deriving Repr, DecidableEq

/-- A Python time value: either a `datetime.datetime` (`dt`) or a `float` Unix
timestamp (`ts`), both measured on the same clock. -/
inductive PyTime where
  | dt (t : Rat)
  | ts (t : Rat)
deriving Repr, DecidableEq

/-- Python truthiness of a time value: `datetime` objects are always truthy, a
`float` timestamp is falsy exactly when it is `0.0`. -/
def pyTruthyTime : PyTime → Bool
  | .dt _ => true
  | .ts t => decide (t ≠ 0)

/-- Python truthiness of an optional string (`None` and `""` are falsy). -/
def pyTruthyStr : Option String → Bool
  | none => false
  | some s => decide (s ≠ "")

/-- The Python comparison `a > b` on time values.  Comparing a `float` with a
`datetime` raises `TypeError`, which is exactly the situation of line 33 of the
source once line 56 has stored a `float` timestamp in `token_expiry`. -/
def pyTimeGt : PyTime → PyTime → Except PyErr Bool
  | .dt a, .dt b => .ok (decide (b < a))
  | .ts a, .ts b => .ok (decide (b < a))
  | .ts _, .dt _ => .error (.typeError "gt not supported between instances of float and datetime.datetime")
  | .dt _, .ts _ => .error (.typeError "gt not supported between instances of datetime.datetime and float")

/-- JSON values; objects are insertion-ordered association lists, as Python dicts are. -/
inductive JVal where
  | str (s : String)
  | int (n : Int)
  | num (q : Rat)
  | obj (fields : List (String × JVal))
  | arr (elems : List JVal)
deriving Repr

/-- Python dictionary subscription `d[key]` on a field modelled as `Option`:
a missing key raises `KeyError(key)`. -/
def pyGet {α : Type} (v : Option α) (key : String) : Except PyErr α :=
  match v with
  | some x => .ok x
  | none => .error (.keyError key)

/-- The standard base64 alphabet. -/
def b64Alphabet : List Char :=
  "ABCDEFGHIJKLMNOPQRSTUVWXYZabcdefghijklmnopqrstuvwxyz0123456789+/".toList

/-- The base64 digit for a 6-bit group. -/
def b64Char (n : Nat) : Char := b64Alphabet.getD n 'A'

/-- Base64-encode a byte sequence, 3 bytes to 4 digits, `=`-padded. -/
def b64Chunks : List Nat → List Char
  | [] => []
  | [a] =>
    let n := a * 65536
    [b64Char (n / 262144), b64Char (n / 4096 % 64), '=', '=']
  | [a, b] =>
    let n := a * 65536 + b * 256
    [b64Char (n / 262144), b64Char (n / 4096 % 64), b64Char (n / 64 % 64), '=']
  | a :: b :: c :: rest =>
    let n := a * 65536 + b * 256 + c
    b64Char (n / 262144) :: b64Char (n / 4096 % 64) :: b64Char (n / 64 % 64) :: b64Char (n % 64)
      :: b64Chunks rest

/-- `base64.b64encode(s.encode()).decode()` on a UTF-8 string. -/
def b64encode (s : String) : String :=
  String.mk (b64Chunks (s.toUTF8.data.toList.map UInt8.toNat))

/-- The mutable state of a `WorkdayAPIntegration` instance: the three immutable
credentials set by `__init__` plus the token cache (`self.token`,
`self.token_expiry`), both initialized to `None`. -/
structure WorkdayAPIntegration where
  tenant_url : String
  client_id : String
  client_secret : String
  token : Option String
  token_expiry : Option PyTime
deriving Repr, DecidableEq

/-- `WorkdayAPIntegration.__init__`: stores the credentials, token state absent. -/
def initClient (tenant_url client_id client_secret : String) : WorkdayAPIntegration :=
  ⟨tenant_url, client_id, client_secret, none, none⟩

/-- Line 33 of the source:
`if self.token and self.token_expiry and self.token_expiry > datetime.now():`.
Returns `.ok (some tok)` on a cache hit, `.ok none` when the guard is falsy
without evaluating the comparison (short-circuit), and propagates the
`TypeError` the comparison raises. -/
def cacheCheck (token : Option String) (expiry : Option PyTime) (now : Rat) :
    Except PyErr (Option String) :=
  match token, expiry with
  | some tok, some exp =>
    if tok = "" then .ok none
    else if pyTruthyTime exp then
      match pyTimeGt exp (.dt now) with
      | .error e => .error e
      | .ok b => .ok (if b then some tok else none)
    else .ok none
  | _, _ => .ok none

/-- The JSON body of the token endpoint response, as read by the source
(`token_data['access_token']`, `token_data['expires_in']`); `none` models a
missing key.  The access token is modelled as a string and `expires_in` as a
number of seconds. -/
structure TokenBody where
  access_token : Option String
  expires_in : Option Rat
deriving Repr, DecidableEq

/-- Outcome the network produces for the token-endpoint POST: a raised
`requests.RequestException` (transport error) or a response with a status code,
a reason phrase and a JSON body (`none` = body that fails JSON decoding). -/
inductive AuthOutcome where
  | transportError (msg : String)
  | response (status : Nat) (reason : String) (json : Option TokenBody)
deriving Repr, DecidableEq

/-- Outcome the network produces for one of the three post-auth calls. -/
inductive OpOutcome where
  | transportError (msg : String)
  | response (status : Nat) (reason : String) (text : String) (json : Option JVal)
deriving Repr

/-- Observable actions: outbound HTTP requests and log records. -/
inductive Event where
  | httpPost (url : String) (headers : List (String × String)) (formBody : List (String × String))
  | httpPostJson (url : String) (headers : List (String × String)) (body : JVal)
  | httpGet (url : String) (headers : List (String × String))
  | httpPut (url : String) (headers : List (String × String)) (body : JVal)
  | logInfo (msg : String)
  | logError (msg : String)
deriving Repr

/-- Whether an event is a log record. -/
def isLogEvent : Event → Bool
  | .logInfo _ => true
  | .logError _ => true
  | _ => false

/-- Whether an event is an outbound HTTP request. -/
def isHttpEvent : Event → Bool
  | .logInfo _ => false
  | .logError _ => false
  | _ => true

/-- The log records of a trace. -/
def logsOf (evs : List Event) : List Event := evs.filter isLogEvent

/-- The HTTP requests of a trace. -/
def httpCallsOf (evs : List Event) : List Event := evs.filter isHttpEvent

/-- `raise_for_status` raises exactly for `400 ≤ status < 600`. -/
def raisesForStatus (status : Nat) : Bool :=
  decide (400 ≤ status) && decide (status < 600)

/-- The message of the `requests.HTTPError` raised by `raise_for_status`. -/
def httpErrorMsg (status : Nat) (reason : String) (url : String) : String :=
  if status < 500 then
    toString status ++ " Client Error: " ++ reason ++ " for url: " ++ url
  else
    toString status ++ " Server Error: " ++ reason ++ " for url: " ++ url

/-- The message of the `JSONDecodeError` raised by `response.json()` on a
non-JSON body. -/
def jsonDecodeErrMsg : String := "Expecting value: line 1 column 1 (char 0)"

/-- Result of `get_auth_token`: the returned token or raised exception, the
client state after the call, and the trace of HTTP calls and log records. -/
structure AuthResult where
  result : Except PyErr String
  state : WorkdayAPIntegration
  events : List Event
deriving Repr

/-- `f"{self.tenant_url}/ccx/oauth2/token"` (line 36). -/
def authUrl (st : WorkdayAPIntegration) : String := st.tenant_url ++ "/ccx/oauth2/token"

/-- Line 37: `"Basic " + base64.b64encode(f"{client_id}:{client_secret}".encode()).decode()`. -/
def basicAuthValue (st : WorkdayAPIntegration) : String :=
  "Basic " ++ b64encode (st.client_id ++ ":" ++ st.client_secret)

/-- The headers of the token-endpoint POST (lines 39-42). -/
def authHeaders (st : WorkdayAPIntegration) : List (String × String) :=
  [("Authorization", basicAuthValue st),
   ("Content-Type", "application/x-www-form-urlencoded")]

/-- The form-encoded body of the token-endpoint POST (lines 44-47). -/
def authFormBody : List (String × String) :=
  [("grant_type", "client_credentials"), ("scope", "workday_api")]

/-- Lines 49-61 of the source: the `try` block around the token-endpoint POST.
`now1` is the wall clock at `datetime.now().timestamp()` on line 56 (response
time).  On transport error or a 4xx/5xx status the handler logs and raises
`Exception`, leaving the state unchanged.  On success `self.token` is assigned
first (line 54) and `self.token_expiry` after (line 56), so a missing
`expires_in` key leaves a half-updated state; the stored expiry is the `float`
timestamp `now1 + expires_in`. -/
def authRefresh (st : WorkdayAPIntegration) (now1 : Rat) (outc : AuthOutcome) : AuthResult :=
  let callEv : Event := .httpPost (authUrl st) (authHeaders st) authFormBody
  match outc with
  | .transportError msg =>
    ⟨.error (.exception ("Failed to authenticate with Workday: " ++ msg)), st,
      [callEv, .logError ("Authentication error: " ++ msg)]⟩
  | .response status reason json =>
    if raisesForStatus status then
      let msg := httpErrorMsg status reason (authUrl st)
      ⟨.error (.exception ("Failed to authenticate with Workday: " ++ msg)), st,
        [callEv, .logError ("Authentication error: " ++ msg)]⟩
    else
      match json with
      | none =>
        ⟨.error (.exception ("Failed to authenticate with Workday: " ++ jsonDecodeErrMsg)), st,
          [callEv, .logError ("Authentication error: " ++ jsonDecodeErrMsg)]⟩
      | some body =>
        match body.access_token with
        | none => ⟨.error (.keyError "access_token"), st, [callEv]⟩
        | some tok =>
          let st1 := { st with token := some tok }
          match body.expires_in with
          | none => ⟨.error (.keyError "expires_in"), st1, [callEv]⟩
          | some exp =>
            ⟨.ok tok, { st1 with token_expiry := some (.ts (now1 + exp)) }, [callEv]⟩

/-- `get_auth_token` (lines 31-61).  `now0` is the wall clock at the guard on
line 33 and `now1` the wall clock at line 56. -/
def get_auth_token (st : WorkdayAPIntegration) (now0 now1 : Rat) (outc : AuthOutcome) :
    AuthResult :=
  match cacheCheck st.token st.token_expiry now0 with
  | .error e => ⟨.error e, st, []⟩
  | .ok (some tok) => ⟨.ok tok, st, []⟩
  | .ok none => authRefresh st now1 outc

/-- One entry of `invoice_data["line_items"]` as the source reads it:
`item["amount"]` is a required lookup, the other four fields are read with
`.get(..., "")`.  `none` models a missing key. -/
structure LineItemData where
  description : Option String
  amount : Option Rat
  cost_center : Option String
  project_id : Option String
  account_category : Option String
deriving Repr, DecidableEq

/-- The `invoice_data` dict as the source reads it (lines 83-106): five
required lookups (`supplier_id`, `invoice_number`, `invoice_date`,
`total_amount`, `line_items`) and two `.get` reads with defaults
(`description` and `currency`). -/
structure InvoiceData where
  supplier_id : Option String
  invoice_number : Option String
  invoice_date : Option String
  description : Option String
  total_amount : Option Rat
  currency : Option String
  line_items : Option (List LineItemData)
deriving Repr, DecidableEq

/-- The `payment_data` dict as the source reads it (lines 167-175). -/
structure PaymentData where
  payment_date : Option String
  payment_method : Option String
  amount : Option Rat
  currency : Option String
  reference : Option String
deriving Repr, DecidableEq

/-- One element of the `invoiceLines` list comprehension (lines 93-103):
the dict built for `item` at 0-based position `idx`, raising `KeyError` when
`item["amount"]` is missing. -/
def formatLine (cur : String) (idx : Nat) (item : LineItemData) : Except PyErr JVal :=
  match item.amount with
  | none => .error (.keyError "amount")
  | some amt =>
    .ok (.obj
      [("lineNumber", .int ((idx : Int) + 1)),
       ("itemDescription", .str (item.description.getD "")),
       ("amount", .obj [("amount", .num amt), ("currency", .str cur)]),
       ("costCenter", .str (item.cost_center.getD "")),
       ("projectReference", .str (item.project_id.getD "")),
       ("accountCategory", .str (item.account_category.getD ""))])

/-- The `invoiceLines` comprehension over `enumerate(invoice_data["line_items"])`,
current 0-based index `idx`. -/
def formatLines (cur : String) : Nat → List LineItemData → Except PyErr (List JVal)
  | _, [] => .ok []
  | idx, item :: rest =>
    match formatLine cur idx item with
    | .error e => .error e
    | .ok line =>
      match formatLines cur (idx + 1) rest with
      | .error e => .error e
      | .ok tail => .ok (line :: tail)

/-- The `formatted_invoice` dict literal (lines 83-106), with lookups performed
in the evaluation order of the literal. -/
def format_invoice (d : InvoiceData) : Except PyErr JVal :=
  match d.supplier_id with
  | none => .error (.keyError "supplier_id")
  | some sup =>
  match d.invoice_number with
  | none => .error (.keyError "invoice_number")
  | some num =>
  match d.invoice_date with
  | none => .error (.keyError "invoice_date")
  | some date =>
  match d.total_amount with
  | none => .error (.keyError "total_amount")
  | some total =>
  match d.line_items with
  | none => .error (.keyError "line_items")
  | some items =>
  match formatLines (d.currency.getD "USD") 0 items with
  | .error e => .error e
  | .ok lines =>
    .ok (.obj
      [("supplierReference", .str sup),
       ("invoiceNumber", .str num),
       ("invoiceDate", .str date),
       ("invoiceDescription", .str (d.description.getD "")),
       ("invoiceTotal", .obj
         [("amount", .num total), ("currency", .str (d.currency.getD "USD"))]),
       ("invoiceLines", .arr lines)])

/-- The `formatted_payment` dict literal (lines 167-175). -/
def format_payment (d : PaymentData) : Except PyErr JVal :=
  match d.payment_date with
  | none => .error (.keyError "payment_date")
  | some date =>
  match d.payment_method with
  | none => .error (.keyError "payment_method")
  | some method =>
  match d.amount with
  | none => .error (.keyError "amount")
  | some amt =>
    .ok (.obj
      [("paymentDate", .str date),
       ("paymentMethod", .str method),
       ("paymentAmount", .obj
         [("amount", .num amt), ("currency", .str (d.currency.getD "USD"))]),
       ("paymentReference", .str (d.reference.getD ""))])

/-- Result of one of the three post-auth operations. -/
structure OpResult where
  result : Except PyErr JVal
  state : WorkdayAPIntegration
  events : List Event
deriving Repr

/-- `f"{self.tenant_url}/api/v1/financial-management/suppliers/invoices"` (line 74). -/
def invoiceUrl (st : WorkdayAPIntegration) : String :=
  st.tenant_url ++ "/api/v1/financial-management/suppliers/invoices"

/-- The invoice-status endpoint for `invoice_id` (line 132). -/
def statusUrl (st : WorkdayAPIntegration) (invoice_id : String) : String :=
  st.tenant_url ++ "/api/v1/financial-management/suppliers/invoices/" ++ invoice_id

/-- The payment endpoint for `invoice_id` (line 159). -/
def paymentUrl (st : WorkdayAPIntegration) (invoice_id : String) : String :=
  st.tenant_url ++ "/api/v1/financial-management/suppliers/invoices/" ++ invoice_id
    ++ "/payments"

/-- Bearer headers with JSON content type (lines 76-80 and 161-165). -/
def bearerJsonHeaders (token : String) : List (String × String) :=
  [("Authorization", "Bearer " ++ token),
   ("Content-Type", "application/json"),
   ("Accept", "application/json")]

/-- Bearer headers of the GET request (lines 134-137). -/
def bearerAcceptHeaders (token : String) : List (String × String) :=
  [("Authorization", "Bearer " ++ token), ("Accept", "application/json")]

/-- `create_invoice` after the token is available (lines 74-119): the payload
build, the POST, and the `try` block.  Returns the result and the events of
this part of the call (the caller prepends the auth events).  On a 4xx/5xx
status the handler logs the first message and then tests
`hasattr(e, 'response') and e.response`; a `Response` is truthy only when its
status is below 400, so the `"Response: ..."` record is never written.  On a
transport error `e.response` is `None`, with the same effect. -/
def createTail (st : WorkdayAPIntegration) (token : String) (outc : OpOutcome)
    (invoice_data : InvoiceData) : Except PyErr JVal × List Event :=
  match format_invoice invoice_data with
  | .error e => (.error e, [])
  | .ok payload =>
    let url := invoiceUrl st
    let callEv : Event := .httpPostJson url (bearerJsonHeaders token) payload
    match outc with
    | .transportError msg =>
      (.error (.exception ("Failed to create invoice in Workday: " ++ msg)),
        [callEv, .logError ("Error creating invoice: " ++ msg)])
    | .response status reason _text json =>
      if raisesForStatus status then
        let msg := httpErrorMsg status reason url
        (.error (.exception ("Failed to create invoice in Workday: " ++ msg)),
          [callEv, .logError ("Error creating invoice: " ++ msg)])
      else
        match json with
        | none =>
          (.error (.exception ("Failed to create invoice in Workday: " ++ jsonDecodeErrMsg)),
            [callEv, .logError ("Error creating invoice: " ++ jsonDecodeErrMsg)])
        | some result =>
          match invoice_data.invoice_number with
          | none => (.error (.keyError "invoice_number"), [callEv])
          | some n =>
            (.ok result,
              [callEv, .logInfo ("Successfully created invoice " ++ n ++ " in Workday")])

/-- `create_invoice` (lines 63-119): `self.get_auth_token()` first, then the
payload build and the POST. -/
def create_invoice (st : WorkdayAPIntegration) (now0 now1 : Rat) (authOutc : AuthOutcome)
    (opOutc : OpOutcome) (invoice_data : InvoiceData) : OpResult :=
  let a := get_auth_token st now0 now1 authOutc
  match a.result with
  | .error e => ⟨.error e, a.state, a.events⟩
  | .ok token =>
    let t := createTail st token opOutc invoice_data
    ⟨t.1, a.state, a.events ++ t.2⟩

/-- `get_invoice_status` after the token is available (lines 132-145). -/
def statusTail (st : WorkdayAPIntegration) (token : String) (outc : OpOutcome)
    (invoice_id : String) : Except PyErr JVal × List Event :=
  let url := statusUrl st invoice_id
  let callEv : Event := .httpGet url (bearerAcceptHeaders token)
  match outc with
  | .transportError msg =>
    (.error (.exception ("Failed to get invoice status from Workday: " ++ msg)),
      [callEv, .logError ("Error getting invoice status: " ++ msg)])
  | .response status reason _text json =>
    if raisesForStatus status then
      let msg := httpErrorMsg status reason url
      (.error (.exception ("Failed to get invoice status from Workday: " ++ msg)),
        [callEv, .logError ("Error getting invoice status: " ++ msg)])
    else
      match json with
      | none =>
        (.error (.exception ("Failed to get invoice status from Workday: " ++ jsonDecodeErrMsg)),
          [callEv, .logError ("Error getting invoice status: " ++ jsonDecodeErrMsg)])
      | some result => (.ok result, [callEv])

/-- `get_invoice_status` (lines 121-145). -/
def get_invoice_status (st : WorkdayAPIntegration) (now0 now1 : Rat) (authOutc : AuthOutcome)
    (opOutc : OpOutcome) (invoice_id : String) : OpResult :=
  let a := get_auth_token st now0 now1 authOutc
  match a.result with
  | .error e => ⟨.error e, a.state, a.events⟩
  | .ok token =>
    let t := statusTail st token opOutc invoice_id
    ⟨t.1, a.state, a.events ++ t.2⟩

/-- `update_invoice_payment` after the token is available (lines 159-185).
Note the success log on line 181 is written before `response.json()` on line
182, so a body that fails JSON decoding produces both the info record and the
error record. -/
def paymentTail (st : WorkdayAPIntegration) (token : String) (outc : OpOutcome)
    (invoice_id : String) (payment_data : PaymentData) : Except PyErr JVal × List Event :=
  match format_payment payment_data with
  | .error e => (.error e, [])
  | .ok payload =>
    let url := paymentUrl st invoice_id
    let callEv : Event := .httpPut url (bearerJsonHeaders token) payload
    match outc with
    | .transportError msg =>
      (.error (.exception ("Failed to update invoice payment in Workday: " ++ msg)),
        [callEv, .logError ("Error updating payment: " ++ msg)])
    | .response status reason _text json =>
      if raisesForStatus status then
        let msg := httpErrorMsg status reason url
        (.error (.exception ("Failed to update invoice payment in Workday: " ++ msg)),
          [callEv, .logError ("Error updating payment: " ++ msg)])
      else
        let infoEv : Event := .logInfo ("Successfully updated payment for invoice " ++ invoice_id)
        match json with
        | none =>
          (.error (.exception ("Failed to update invoice payment in Workday: " ++ jsonDecodeErrMsg)),
            [callEv, infoEv, .logError ("Error updating payment: " ++ jsonDecodeErrMsg)])
        | some result => (.ok result, [callEv, infoEv])

/-- `update_invoice_payment` (lines 147-185). -/
def update_invoice_payment (st : WorkdayAPIntegration) (now0 now1 : Rat)
    (authOutc : AuthOutcome) (opOutc : OpOutcome) (invoice_id : String)
    (payment_data : PaymentData) : OpResult :=
  let a := get_auth_token st now0 now1 authOutc
  match a.result with
  | .error e => ⟨.error e, a.state, a.events⟩
  | .ok token =>
    let t := paymentTail st token opOutc invoice_id payment_data
    ⟨t.1, a.state, a.events ++ t.2⟩

/-- Lookup of `key` in an ordered field list (first match). -/
def jLookupFields (key : String) : List (String × JVal) → Option JVal
  | [] => none
  | (k, v) :: rest => if k = key then some v else jLookupFields key rest

/-- Lookup of `key` in a JSON object. -/
def jLookup (v : JVal) (key : String) : Option JVal :=
  match v with
  | .obj fields => jLookupFields key fields
  | _ => none

/-- Two-level lookup `v[k1][k2]`. -/
def jLookup2 (v : JVal) (k1 k2 : String) : Option JVal :=
  match jLookup v k1 with
  | some w => jLookup w k2
  | none => none

/-- The keys of a JSON object, in insertion order. -/
def jKeys (v : JVal) : List String :=
  match v with
  | .obj fields => fields.map Prod.fst
  | _ => []

/-- The elements of the `invoiceLines` entry of a payload. -/
def jLines (v : JVal) : Option (List JVal) :=
  match jLookup v "invoiceLines" with
  | some (.arr ls) => some ls
  | _ => none

/-- `[s, s+1, ..., s+n-1]`. -/
def intsFrom (s : Nat) : Nat → List Nat
  | 0 => []
  | n + 1 => s :: intsFrom (s + 1) n

/-- Wire object for one line item following the section 6 field-renaming table
of the spec: `lineNumber` is the 1-based position `pos`, `itemDescription`,
`costCenter`, `projectReference` and `accountCategory` are the optional fields
defaulting to the empty string, and the amount carries the invoice-level
currency.  The `getD 0` on the amount is only reached under the precondition
that the item carries an amount. -/
def specLineWire (invoiceCurrency : String) (pos : Nat) (it : LineItemData) : JVal :=
  .obj
    [("lineNumber", .int (pos : Int)),
     ("itemDescription", .str (it.description.getD "")),
     ("amount", .obj [("amount", .num (it.amount.getD 0)), ("currency", .str invoiceCurrency)]),
     ("costCenter", .str (it.cost_center.getD "")),
     ("projectReference", .str (it.project_id.getD "")),
     ("accountCategory", .str (it.account_category.getD ""))]

/-- The wire line list per the spec: positions `pos, pos+1, ...` in input order. -/
def specLinesWire (invoiceCurrency : String) : Nat → List LineItemData → List JVal
  | _, [] => []
  | pos, it :: rest =>
    specLineWire invoiceCurrency pos it :: specLinesWire invoiceCurrency (pos + 1) rest

/-- The create-invoice wire payload following the section 6 field-renaming
table of the spec: `supplier_id` becomes `supplierReference`, `invoice_number`
becomes `invoiceNumber`, `invoice_date` becomes `invoiceDate`, `description`
becomes `invoiceDescription` (default empty), `total_amount` and the currency
(default `"USD"`) become `invoiceTotal`, and the line items become
`invoiceLines` with 1-based line numbers. -/
def specInvoiceWire (sup num date : String) (desc : Option String) (total : Rat)
    (cur : Option String) (items : List LineItemData) : JVal :=
  .obj
    [("supplierReference", .str sup),
     ("invoiceNumber", .str num),
     ("invoiceDate", .str date),
     ("invoiceDescription", .str (desc.getD "")),
     ("invoiceTotal", .obj
       [("amount", .num total), ("currency", .str (cur.getD "USD"))]),
     ("invoiceLines", .arr (specLinesWire (cur.getD "USD") 1 items))]

/-- A client fresh out of `__init__`, used by concrete instances below. -/
def demoClient : WorkdayAPIntegration := initClient "https://t.example.com" "id" "secret"

/-- A successful token-endpoint response carrying token `tok-1`, 3600 s. -/
def demoAuthOk : AuthOutcome := .response 200 "OK" (some ⟨some "tok-1", some 3600⟩)

/-- The invoice request of the end-to-end scenario in the spec. -/
def demoInvoice : InvoiceData :=
  ⟨some "S1", some "INV-1", some "2025-01-01", none, some 100, none,
    some [⟨none, some 100, none, none, none⟩]⟩

/-- The payment request of the example usage block. -/
def demoPayment : PaymentData :=
  ⟨some "2025-03-15", some "ACH", some 1250, some "USD", some "PMT-2025-0089"⟩

/-- The JSON value a 1-based position `k` takes in a `lineNumber` entry. -/
def lineNumberVal (k : Nat) : Option JVal := some (.int (k : Int))

lemma specLineWire_lineNumber (cur : String) (pos : Nat) (it : LineItemData) :
    jLookup (specLineWire cur pos it) "lineNumber" = lineNumberVal pos := rfl

lemma specLineWire_itemDescription (cur : String) (pos : Nat) (it : LineItemData) :
    jLookup (specLineWire cur pos it) "itemDescription" = some (.str (it.description.getD "")) := rfl

lemma specLineWire_currency (cur : String) (pos : Nat) (it : LineItemData) :
    jLookup2 (specLineWire cur pos it) "amount" "currency" = some (.str cur) := rfl

lemma specLineWire_costCenter (cur : String) (pos : Nat) (it : LineItemData) :
    jLookup (specLineWire cur pos it) "costCenter" = some (.str (it.cost_center.getD "")) := rfl

lemma specLineWire_projectReference (cur : String) (pos : Nat) (it : LineItemData) :
    jLookup (specLineWire cur pos it) "projectReference" = some (.str (it.project_id.getD "")) := rfl

lemma specLineWire_accountCategory (cur : String) (pos : Nat) (it : LineItemData) :
    jLookup (specLineWire cur pos it) "accountCategory" = some (.str (it.account_category.getD "")) := rfl

lemma specLineWire_keys (cur : String) (pos : Nat) (it : LineItemData) :
    jKeys (specLineWire cur pos it) =
      ["lineNumber", "itemDescription", "amount", "costCenter", "projectReference",
       "accountCategory"] := rfl

lemma specInvoiceWire_keys (sup num date : String) (desc : Option String) (total : Rat)
    (cur : Option String) (items : List LineItemData) :
    jKeys (specInvoiceWire sup num date desc total cur items) =
      ["supplierReference", "invoiceNumber", "invoiceDate", "invoiceDescription",
       "invoiceTotal", "invoiceLines"] := rfl

lemma specInvoiceWire_lines (sup num date : String) (desc : Option String) (total : Rat)
    (cur : Option String) (items : List LineItemData) :
    jLines (specInvoiceWire sup num date desc total cur items) =
      some (specLinesWire (cur.getD "USD") 1 items) := rfl

lemma specInvoiceWire_description (sup num date : String) (desc : Option String) (total : Rat)
    (cur : Option String) (items : List LineItemData) :
    jLookup (specInvoiceWire sup num date desc total cur items) "invoiceDescription" =
      some (.str (desc.getD "")) := rfl

lemma specInvoiceWire_totalCurrency (sup num date : String) (desc : Option String) (total : Rat)
    (cur : Option String) (items : List LineItemData) :
    jLookup2 (specInvoiceWire sup num date desc total cur items) "invoiceTotal" "currency" =
      some (.str (cur.getD "USD")) := rfl

lemma specLinesWire_length (cur : String) (items : List LineItemData) :
    ∀ pos, (specLinesWire cur pos items).length = items.length := by
  induction items with
  | nil => intro pos; rfl
  | cons it rest ih => intro pos; simp [specLinesWire, ih (pos + 1)]

lemma specLinesWire_mem (cur : String) (items : List LineItemData) :
    ∀ pos l, l ∈ specLinesWire cur pos items → ∃ pos2 it, it ∈ items ∧ l = specLineWire cur pos2 it := by
  induction items with
  | nil => intro pos l h; simp [specLinesWire] at h
  | cons it rest ih =>
    intro pos l h
    simp only [specLinesWire, List.mem_cons] at h
    rcases h with h | h
    · exact ⟨pos, it, by simp, h⟩
    · obtain ⟨pos2, it2, hmem, hl⟩ := ih (pos + 1) l h
      exact ⟨pos2, it2, by simp [hmem], hl⟩

lemma specLinesWire_lineNumbers (cur : String) (items : List LineItemData) :
    ∀ pos, (specLinesWire cur pos items).map (fun l => jLookup l "lineNumber") =
      (intsFrom pos items.length).map lineNumberVal := by
  induction items with
  | nil => intro pos; rfl
  | cons it rest ih =>
    intro pos
    simp only [specLinesWire, List.length_cons, intsFrom, List.map_cons]
    rw [specLineWire_lineNumber, ih (pos + 1)]

lemma specLinesWire_forall₂ (cur : String) (items : List LineItemData) :
    ∀ pos, List.Forall₂ (fun (it : LineItemData) (l : JVal) => ∃ pos2, l = specLineWire cur pos2 it)
      items (specLinesWire cur pos items) := by
  induction items with
  | nil => intro pos; exact List.Forall₂.nil
  | cons it rest ih => intro pos; exact List.Forall₂.cons ⟨pos, rfl⟩ (ih (pos + 1))

lemma formatLine_ok (cur : String) (idx : Nat) (it : LineItemData) (amt : Rat)
    (h : it.amount = some amt) :
    formatLine cur idx it = .ok (specLineWire cur (idx + 1) it) := by
  simp only [formatLine, h, specLineWire, Option.getD_some]
  norm_num

lemma formatLines_ok_spec (cur : String) (items : List LineItemData) :
    ∀ (idx : Nat) (ls : List JVal), formatLines cur idx items = .ok ls →
      ls = specLinesWire cur (idx + 1) items ∧ ∀ it ∈ items, it.amount.isSome := by
  induction items with
  | nil =>
    intro idx ls h
    simp only [formatLines] at h
    simp only [Except.ok.injEq] at h
    simp [← h, specLinesWire]
  | cons it rest ih =>
    intro idx ls h
    simp only [formatLines] at h
    cases ha : it.amount with
    | none => rw [formatLine, ha] at h; simp at h
    | some amt =>
      rw [formatLine_ok cur idx it amt ha] at h
      cases hrest : formatLines cur (idx + 1) rest with
      | error e => rw [hrest] at h; simp at h
      | ok tail =>
        rw [hrest] at h
        simp only [Except.ok.injEq] at h
        obtain ⟨htail, hamts⟩ := ih (idx + 1) tail hrest
        constructor
        · rw [← h, htail]; rfl
        · intro x hx
          rcases List.mem_cons.mp hx with hx | hx
          · rw [hx, ha]; rfl
          · exact hamts x hx

lemma formatLines_complete (cur : String) (items : List LineItemData) :
    ∀ idx, (∀ it ∈ items, it.amount.isSome) →
      formatLines cur idx items = .ok (specLinesWire cur (idx + 1) items) := by
  induction items with
  | nil => intro idx _; rfl
  | cons it rest ih =>
    intro idx h
    obtain ⟨amt, ha⟩ := Option.isSome_iff_exists.mp (h it (by simp))
    rw [formatLines, formatLine_ok cur idx it amt ha, ih (idx + 1) (fun x hx => h x (by simp [hx]))]
    rfl

lemma format_invoice_ok (d : InvoiceData) (p : JVal) (h : format_invoice d = .ok p) :
    ∃ sup num date total items,
      d.supplier_id = some sup ∧ d.invoice_number = some num ∧ d.invoice_date = some date ∧
      d.total_amount = some total ∧ d.line_items = some items ∧
      (∀ it ∈ items, it.amount.isSome) ∧
      p = specInvoiceWire sup num date d.description total d.currency items := by
  cases hsup : d.supplier_id with
  | none => simp [format_invoice, hsup] at h
  | some sup =>
  cases hnum : d.invoice_number with
  | none => simp [format_invoice, hsup, hnum] at h
  | some num =>
  cases hdate : d.invoice_date with
  | none => simp [format_invoice, hsup, hnum, hdate] at h
  | some date =>
  cases htotal : d.total_amount with
  | none => simp [format_invoice, hsup, hnum, hdate, htotal] at h
  | some total =>
  cases hitems : d.line_items with
  | none => simp [format_invoice, hsup, hnum, hdate, htotal, hitems] at h
  | some items =>
  cases hfl : formatLines (d.currency.getD "USD") 0 items with
  | error e => simp [format_invoice, hsup, hnum, hdate, htotal, hitems, hfl] at h
  | ok lines =>
    simp only [format_invoice, hsup, hnum, hdate, htotal, hitems, hfl, Except.ok.injEq] at h
    obtain ⟨hlines, hamts⟩ := formatLines_ok_spec (d.currency.getD "USD") items 0 lines hfl
    refine ⟨sup, num, date, total, items, rfl, rfl, rfl, rfl, rfl, hamts, ?_⟩
    rw [← h, hlines]
    rfl

lemma format_invoice_complete (d : InvoiceData) (sup num date : String) (total : Rat)
    (items : List LineItemData) (hsup : d.supplier_id = some sup)
    (hnum : d.invoice_number = some num) (hdate : d.invoice_date = some date)
    (htotal : d.total_amount = some total) (hitems : d.line_items = some items)
    (hamts : ∀ it ∈ items, it.amount.isSome) :
    format_invoice d =
      .ok (specInvoiceWire sup num date d.description total d.currency items) := by
  simp only [format_invoice, hsup, hnum, hdate, htotal, hitems,
    formatLines_complete (d.currency.getD "USD") items 0 hamts]
  rfl

/-- C1: the claim says that with a cached token whose stored expiry is strictly
in the future, `get_auth_token` returns the cached token with zero HTTP calls.
The code cannot do this: line 56 stores the expiry as a `float` timestamp while
line 33 compares it against a `datetime` object, so the comparison raises
`TypeError`.  The first conjunct shows the offending state is exactly the one a
successful refresh produces; the remaining conjuncts evaluate the call in that
state (stored expiry 3705, wall clock 1000, so the expiry is strictly in the
future): the result is a raised `TypeError`, not the cached token, with no
HTTP call and no log record. -/
theorem c1_cached_token_raises_type_error :
    (get_auth_token demoClient 100 105 demoAuthOk).state =
      { demoClient with token := some "tok-1", token_expiry := some (.ts (105 + 3600)) } ∧
    (105 : Rat) + 3600 = 3705 ∧
    (get_auth_token { demoClient with token := some "tok-1", token_expiry := some (.ts 3705) }
        1000 1000 demoAuthOk).result =
      .error (.typeError "gt not supported between instances of float and datetime.datetime") ∧
    (get_auth_token { demoClient with token := some "tok-1", token_expiry := some (.ts 3705) }
        1000 1000 demoAuthOk).events = [] ∧
    (1000 : Rat) < 3705 :=
  ⟨rfl, by norm_num, rfl, rfl, by norm_num⟩

/-- C2: the refresh path itself matches the claim when no token is cached: one
POST to `{tenant}/ccx/oauth2/token` with Basic auth `base64("id:secret")` and
the client-credentials form body, storing the token and expiry
`now-at-response-time + expires_in` and returning the token (first four
conjuncts).  But in the other state the claim covers — a cached token whose
expiry lies in the past (stored 50, wall clock 100) — the code raises
`TypeError` from the float/datetime comparison on line 33 and issues zero HTTP
calls instead of the claimed single refresh POST (last two conjuncts). -/
theorem c2_expired_cache_refresh_type_error :
    (get_auth_token demoClient 100 105 demoAuthOk).events =
      [.httpPost "https://t.example.com/ccx/oauth2/token"
        [("Authorization", "Basic aWQ6c2VjcmV0"),
         ("Content-Type", "application/x-www-form-urlencoded")]
        [("grant_type", "client_credentials"), ("scope", "workday_api")]] ∧
    (get_auth_token demoClient 100 105 demoAuthOk).result = .ok "tok-1" ∧
    (get_auth_token demoClient 100 105 demoAuthOk).state.token = some "tok-1" ∧
    (get_auth_token demoClient 100 105 demoAuthOk).state.token_expiry =
      some (.ts (105 + 3600)) ∧
    (get_auth_token { demoClient with token := some "old", token_expiry := some (.ts 50) }
        100 100 demoAuthOk).result =
      .error (.typeError "gt not supported between instances of float and datetime.datetime") ∧
    (get_auth_token { demoClient with token := some "old", token_expiry := some (.ts 50) }
        100 100 demoAuthOk).events = [] :=
  ⟨rfl, rfl, rfl, rfl, rfl, rfl⟩

lemma format_payment_ok (q : PaymentData) (pq : JVal) (h : format_payment q = .ok pq) :
    ∃ date method amt, q.payment_date = some date ∧ q.payment_method = some method ∧
      q.amount = some amt ∧
      pq = .obj [("paymentDate", .str date), ("paymentMethod", .str method),
        ("paymentAmount", .obj [("amount", .num amt), ("currency", .str (q.currency.getD "USD"))]),
        ("paymentReference", .str (q.reference.getD ""))] := by
  cases hd : q.payment_date with
  | none => simp [format_payment, hd] at h
  | some date =>
  cases hm : q.payment_method with
  | none => simp [format_payment, hd, hm] at h
  | some method =>
  cases ha : q.amount with
  | none => simp [format_payment, hd, hm, ha] at h
  | some amt =>
    simp only [format_payment, hd, hm, ha, Except.ok.injEq] at h
    exact ⟨date, method, amt, rfl, rfl, rfl, h.symm⟩

/-- C4: the invoice payload follows the section 6 field-renaming table for
every request carrying the required fields (first conjunct, against the
spec-modelled `specInvoiceWire`), and the end-to-end scenario — tenant
`https://t.example.com`, supplier `S1`, invoice `INV-1` dated `2025-01-01`,
total 100, one line item of amount 100 — produces exactly the claimed outbound
POST body (second conjunct) and returns the parsed response (third). -/
theorem c4_invoice_payload_mapping
    (d : InvoiceData) (sup num date : String) (total : Rat) (items : List LineItemData)
    (hsup : d.supplier_id = some sup) (hnum : d.invoice_number = some num)
    (hdate : d.invoice_date = some date) (htotal : d.total_amount = some total)
    (hitems : d.line_items = some items) (hamts : ∀ it ∈ items, it.amount.isSome) :
    format_invoice d = .ok (specInvoiceWire sup num date d.description total d.currency items) ∧
    (create_invoice demoClient 100 105 demoAuthOk
        (.response 201 "Created" "" (some (.obj [("id", .str "INV-ID-1")]))) demoInvoice).events =
      [.httpPost "https://t.example.com/ccx/oauth2/token"
         [("Authorization", "Basic aWQ6c2VjcmV0"),
          ("Content-Type", "application/x-www-form-urlencoded")]
         [("grant_type", "client_credentials"), ("scope", "workday_api")],
       .httpPostJson "https://t.example.com/api/v1/financial-management/suppliers/invoices"
         [("Authorization", "Bearer tok-1"), ("Content-Type", "application/json"),
          ("Accept", "application/json")]
         (.obj [("supplierReference", .str "S1"), ("invoiceNumber", .str "INV-1"),
                ("invoiceDate", .str "2025-01-01"), ("invoiceDescription", .str ""),
                ("invoiceTotal", .obj [("amount", .num 100), ("currency", .str "USD")]),
                ("invoiceLines", .arr [.obj
                  [("lineNumber", .int 1), ("itemDescription", .str ""),
                   ("amount", .obj [("amount", .num 100), ("currency", .str "USD")]),
                   ("costCenter", .str ""), ("projectReference", .str ""),
                   ("accountCategory", .str "")]])]),
       .logInfo "Successfully created invoice INV-1 in Workday"] ∧
    (create_invoice demoClient 100 105 demoAuthOk
        (.response 201 "Created" "" (some (.obj [("id", .str "INV-ID-1")]))) demoInvoice).result =
      .ok (.obj [("id", .str "INV-ID-1")]) :=
  ⟨format_invoice_complete d sup num date total items hsup hnum hdate htotal hitems hamts,
    rfl, rfl⟩

/-- C4 witness: the universal conjunct evaluated at the scenario request. -/
theorem c4_invoice_payload_mapping_witness :
    demoInvoice.supplier_id = some "S1" ∧
    (∀ it ∈ [(⟨none, some 100, none, none, none⟩ : LineItemData)], it.amount.isSome) ∧
    format_invoice demoInvoice =
      .ok (specInvoiceWire "S1" "INV-1" "2025-01-01" none 100 none
        [⟨none, some 100, none, none, none⟩]) :=
  ⟨rfl, by decide,
    (c4_invoice_payload_mapping demoInvoice "S1" "INV-1" "2025-01-01" 100
      [⟨none, some 100, none, none, none⟩] rfl rfl rfl rfl rfl (by decide)).1⟩

/-- C5: in every payload `create_invoice` builds, the `currency` of every
generated line item equals the invoice-level currency
(`invoice_data.get("currency", "USD")`), which is also the `invoiceTotal`
currency; the line-item model has no per-line currency field at all. -/
theorem c5_line_currency_invariant (d : InvoiceData) (p : JVal)
    (h : format_invoice d = .ok p) :
    ∃ ls, jLines p = some ls ∧
      jLookup2 p "invoiceTotal" "currency" = some (.str (d.currency.getD "USD")) ∧
      ∀ l ∈ ls, jLookup2 l "amount" "currency" = some (.str (d.currency.getD "USD")) := by
  obtain ⟨sup, num, date, total, items, hsup, hnum, hdate, htotal, hitems, hamts, hp⟩ :=
    format_invoice_ok d p h
  subst hp
  refine ⟨specLinesWire (d.currency.getD "USD") 1 items,
    specInvoiceWire_lines sup num date d.description total d.currency items,
    specInvoiceWire_totalCurrency sup num date d.description total d.currency items, ?_⟩
  intro l hl
  obtain ⟨pos2, it, _, hl2⟩ := specLinesWire_mem (d.currency.getD "USD") items 1 l hl
  rw [hl2]
  exact specLineWire_currency (d.currency.getD "USD") pos2 it

/-- The end-to-end request with currency `EUR`. -/
def demoInvoiceEUR : InvoiceData := { demoInvoice with currency := some "EUR" }

/-- The payload of `demoInvoiceEUR`. -/
def demoPayloadEUR : JVal :=
  specInvoiceWire "S1" "INV-1" "2025-01-01" none 100 (some "EUR")
    [⟨none, some 100, none, none, none⟩]

/-- C5 witness: `EUR` propagates to `invoiceTotal` and to the line amounts. -/
theorem c5_line_currency_invariant_witness :
    format_invoice demoInvoiceEUR = .ok demoPayloadEUR ∧
    demoInvoiceEUR.currency.getD "USD" = "EUR" ∧
    (∃ ls, jLines demoPayloadEUR = some ls ∧
      jLookup2 demoPayloadEUR "invoiceTotal" "currency" =
        some (.str (demoInvoiceEUR.currency.getD "USD")) ∧
      ∀ l ∈ ls, jLookup2 l "amount" "currency" =
        some (.str (demoInvoiceEUR.currency.getD "USD"))) :=
  ⟨rfl, rfl, c5_line_currency_invariant demoInvoiceEUR demoPayloadEUR rfl⟩

/-- C6: the generated `invoiceLines` carry `lineNumber` values `1 .. n`
assigned by 1-based position in input order, for every `line_items` sequence
of length `n`. -/
theorem c6_line_numbers_one_based (d : InvoiceData) (items : List LineItemData) (p : JVal)
    (hitems : d.line_items = some items) (h : format_invoice d = .ok p) :
    ∃ ls, jLines p = some ls ∧ ls.length = items.length ∧
      ls.map (fun l => jLookup l "lineNumber") = (intsFrom 1 items.length).map lineNumberVal := by
  obtain ⟨sup, num, date, total, items2, hsup, hnum, hdate, htotal, hitems2, hamts, hp⟩ :=
    format_invoice_ok d p h
  rw [hitems] at hitems2
  have hi : items = items2 := Option.some.inj hitems2
  subst hi
  subst hp
  exact ⟨specLinesWire (d.currency.getD "USD") 1 items,
    specInvoiceWire_lines sup num date d.description total d.currency items,
    specLinesWire_length (d.currency.getD "USD") items 1,
    specLinesWire_lineNumbers (d.currency.getD "USD") items 1⟩

/-- A request with three line items. -/
def demoInvoice3 : InvoiceData :=
  { demoInvoice with
    line_items := some [⟨some "a", some 10, none, none, none⟩,
      ⟨some "b", some 20, none, none, none⟩, ⟨some "c", some 30, none, none, none⟩] }

/-- The payload of `demoInvoice3`. -/
def demoPayload3 : JVal :=
  specInvoiceWire "S1" "INV-1" "2025-01-01" none 100 none
    [⟨some "a", some 10, none, none, none⟩,
     ⟨some "b", some 20, none, none, none⟩,
     ⟨some "c", some 30, none, none, none⟩]

/-- C6 witness: a 3-item sequence gets `lineNumber` 1, 2, 3 in input order. -/
theorem c6_line_numbers_one_based_witness :
    format_invoice demoInvoice3 = .ok demoPayload3 ∧
    (intsFrom 1 3).map lineNumberVal =
      [some (.int 1), some (.int 2), some (.int 3)] ∧
    (∃ ls, jLines demoPayload3 = some ls ∧ ls.length = 3 ∧
      ls.map (fun l => jLookup l "lineNumber") = (intsFrom 1 3).map lineNumberVal) :=
  ⟨rfl, rfl,
    c6_line_numbers_one_based demoInvoice3
      [⟨some "a", some 10, none, none, none⟩,
       ⟨some "b", some 20, none, none, none⟩,
       ⟨some "c", some 30, none, none, none⟩] demoPayload3 rfl rfl⟩

/-- C7: every payload built by `create_invoice` or `update_invoice_payment`
carries the full fixed key set; omitted optional fields surface as
empty-string defaults (`invoiceDescription`, `itemDescription`, `costCenter`,
`projectReference`, `accountCategory`, `paymentReference`) or as `"USD"`
(currency, at the invoice/payment level); no key is ever missing. -/
theorem c7_defaults_never_missing
    (d : InvoiceData) (items : List LineItemData) (p : JVal) (q : PaymentData) (pq : JVal)
    (hitems : d.line_items = some items)
    (h : format_invoice d = .ok p) (hq : format_payment q = .ok pq) :
    jKeys p = ["supplierReference", "invoiceNumber", "invoiceDate", "invoiceDescription",
      "invoiceTotal", "invoiceLines"] ∧
    (d.description = none → jLookup p "invoiceDescription" = some (.str "")) ∧
    (d.currency = none → jLookup2 p "invoiceTotal" "currency" = some (.str "USD")) ∧
    (∃ ls, jLines p = some ls ∧
      (∀ l ∈ ls, jKeys l = ["lineNumber", "itemDescription", "amount", "costCenter",
        "projectReference", "accountCategory"]) ∧
      List.Forall₂ (fun (it : LineItemData) (l : JVal) =>
        (it.description = none → jLookup l "itemDescription" = some (.str "")) ∧
        (it.cost_center = none → jLookup l "costCenter" = some (.str "")) ∧
        (it.project_id = none → jLookup l "projectReference" = some (.str "")) ∧
        (it.account_category = none → jLookup l "accountCategory" = some (.str "")))
        items ls) ∧
    jKeys pq = ["paymentDate", "paymentMethod", "paymentAmount", "paymentReference"] ∧
    (q.currency = none → jLookup2 pq "paymentAmount" "currency" = some (.str "USD")) ∧
    (q.reference = none → jLookup pq "paymentReference" = some (.str "")) := by
  obtain ⟨sup, num, date, total, items2, hsup, hnum, hdate, htotal, hitems2, hamts, hp⟩ :=
    format_invoice_ok d p h
  rw [hitems] at hitems2
  have hi : items = items2 := Option.some.inj hitems2
  subst hi
  subst hp
  obtain ⟨pdate, pmethod, pamt, hqd, hqm, hqa, hpq⟩ := format_payment_ok q pq hq
  subst hpq
  refine ⟨specInvoiceWire_keys sup num date d.description total d.currency items, ?_, ?_,
    ⟨specLinesWire (d.currency.getD "USD") 1 items,
      specInvoiceWire_lines sup num date d.description total d.currency items, ?_, ?_⟩,
    rfl, ?_, ?_⟩
  · intro hd
    rw [specInvoiceWire_description, hd, Option.getD_none]
  · intro hc
    rw [specInvoiceWire_totalCurrency, hc, Option.getD_none]
  · intro l hl
    obtain ⟨pos2, it, _, hl2⟩ := specLinesWire_mem (d.currency.getD "USD") items 1 l hl
    rw [hl2]
    exact specLineWire_keys (d.currency.getD "USD") pos2 it
  · refine (specLinesWire_forall₂ (d.currency.getD "USD") items 1).imp ?_
    intro it l hpos
    obtain ⟨pos2, hl⟩ := hpos
    subst hl
    refine ⟨fun hd => ?_, fun hd => ?_, fun hd => ?_, fun hd => ?_⟩
    · rw [specLineWire_itemDescription, hd, Option.getD_none]
    · rw [specLineWire_costCenter, hd, Option.getD_none]
    · rw [specLineWire_projectReference, hd, Option.getD_none]
    · rw [specLineWire_accountCategory, hd, Option.getD_none]
  · intro hc
    simp only [jLookup2, jLookup, jLookupFields, hc]
    rfl
  · intro hr
    simp only [jLookup, jLookupFields, hr]
    rfl

/-- An invoice request omitting every optional field. -/
def demoInvoiceMin : InvoiceData :=
  ⟨some "S", some "N", some "D", none, some 5, none, some [⟨none, some 5, none, none, none⟩]⟩

/-- The payload of `demoInvoiceMin`. -/
def demoPayloadMin : JVal :=
  specInvoiceWire "S" "N" "D" none 5 none [⟨none, some 5, none, none, none⟩]

/-- A payment request omitting currency and reference. -/
def demoPaymentMin : PaymentData := ⟨some "PD", some "PM", some 7, none, none⟩

/-- The payload of `demoPaymentMin`. -/
def demoPayPayloadMin : JVal :=
  .obj [("paymentDate", .str "PD"), ("paymentMethod", .str "PM"),
    ("paymentAmount", .obj [("amount", .num 7), ("currency", .str "USD")]),
    ("paymentReference", .str "")]

/-- C7 witness: the defaults conclusion at requests omitting every optional field. -/
theorem c7_defaults_never_missing_witness :
    format_invoice demoInvoiceMin = .ok demoPayloadMin ∧
    format_payment demoPaymentMin = .ok demoPayPayloadMin ∧
    (jKeys demoPayloadMin = ["supplierReference", "invoiceNumber", "invoiceDate",
      "invoiceDescription", "invoiceTotal", "invoiceLines"] ∧
    (demoInvoiceMin.description = none →
      jLookup demoPayloadMin "invoiceDescription" = some (.str "")) ∧
    (demoInvoiceMin.currency = none →
      jLookup2 demoPayloadMin "invoiceTotal" "currency" = some (.str "USD")) ∧
    (∃ ls, jLines demoPayloadMin = some ls ∧
      (∀ l ∈ ls, jKeys l = ["lineNumber", "itemDescription", "amount", "costCenter",
        "projectReference", "accountCategory"]) ∧
      List.Forall₂ (fun (it : LineItemData) (l : JVal) =>
        (it.description = none → jLookup l "itemDescription" = some (.str "")) ∧
        (it.cost_center = none → jLookup l "costCenter" = some (.str "")) ∧
        (it.project_id = none → jLookup l "projectReference" = some (.str "")) ∧
        (it.account_category = none → jLookup l "accountCategory" = some (.str "")))
        [⟨none, some 5, none, none, none⟩] ls) ∧
    jKeys demoPayPayloadMin = ["paymentDate", "paymentMethod", "paymentAmount",
      "paymentReference"] ∧
    (demoPaymentMin.currency = none →
      jLookup2 demoPayPayloadMin "paymentAmount" "currency" = some (.str "USD")) ∧
    (demoPaymentMin.reference = none →
      jLookup demoPayPayloadMin "paymentReference" = some (.str ""))) :=
  ⟨rfl, rfl,
    c7_defaults_never_missing demoInvoiceMin [⟨none, some 5, none, none, none⟩]
      demoPayloadMin demoPaymentMin demoPayPayloadMin rfl rfl rfl⟩

/-- Whether an operation outcome makes the `try` block raise a
`requests.RequestException` before `response.json()`: a transport error or a
status `raise_for_status` raises for. -/
def opFails : OpOutcome → Prop
  | .transportError _ => True
  | .response status _ _ _ => 400 ≤ status ∧ status < 600

/-- The message `str(e)` of the `requests` exception an operation outcome raises. -/
def opFailMsg (url : String) : OpOutcome → String
  | .transportError msg => msg
  | .response status reason _ _ => httpErrorMsg status reason url

/-- The token-endpoint analogue of `opFails`. -/
def authFails : AuthOutcome → Prop
  | .transportError _ => True
  | .response status _ _ => 400 ≤ status ∧ status < 600

/-- C3 counterexample: the claim promises a distinct typed error per failure
category (`InvoiceCreationError`, `PaymentUpdateError`, `ValidationError`, ...)
and an error on every non-2xx status.  Concretely: a failed `create_invoice`
and a failed `update_invoice_payment` both raise the same built-in type
(`PyErr.exception`, Python `Exception`) distinguished only by message text; a
missing required field raises the built-in `KeyError`, not a `ValidationError`
type; and a 300 status with a parseable body raises nothing at all and is
returned as success. -/
theorem c3_counterexample_no_distinct_error_types :
    (create_invoice demoClient 100 105 demoAuthOk
        (.response 500 "Internal Server Error" "boom" none) demoInvoice).result =
      .error (.exception ("Failed to create invoice in Workday: " ++
        "500 Server Error: Internal Server Error for url: " ++
        "https://t.example.com/api/v1/financial-management/suppliers/invoices")) ∧
    (update_invoice_payment demoClient 100 105 demoAuthOk
        (.response 500 "Internal Server Error" "boom" none) "INV-ID-1" demoPayment).result =
      .error (.exception ("Failed to update invoice payment in Workday: " ++
        "500 Server Error: Internal Server Error for url: " ++
        "https://t.example.com/api/v1/financial-management/suppliers/invoices/INV-ID-1/payments")) ∧
    (create_invoice demoClient 100 105 demoAuthOk
        (.response 201 "Created" "" (some (.obj []))) { demoInvoice with supplier_id := none }).result =
      .error (.keyError "supplier_id") ∧
    (create_invoice demoClient 100 105 demoAuthOk
        (.response 300 "Multiple Choices" "" (some (.obj [("id", .str "X")]))) demoInvoice).result =
      .ok (.obj [("id", .str "X")]) :=
  ⟨rfl, rfl, rfl, rfl⟩

/-- C3 amended: every failure is surfaced to the caller, none is swallowed,
but the categories are distinguished by message prefix on the built-in
`Exception` (token endpoint: `Failed to authenticate with Workday:`; the three
post-auth operations: `Failed to create invoice in Workday:` /
`Failed to get invoice status from Workday:` /
`Failed to update invoice payment in Workday:`, each wrapping the underlying
cause message) and by the built-in `KeyError` for a missing required field;
the raising statuses are 4xx/5xx, not all non-2xx. -/
theorem c3_failures_surfaced (st : WorkdayAPIntegration) (now0 now1 : Rat)
    (authOutc : AuthOutcome) (opOutc : OpOutcome) (d : InvoiceData) (q : PaymentData)
    (iid : String) (tok : String)
    (htok : st.token = none)
    (hauth : (get_auth_token st now0 now1 authOutc).result = .ok tok)
    (hfail : opFails opOutc) :
    (∀ msg, (get_auth_token st now0 now1 (.transportError msg)).result =
      .error (.exception ("Failed to authenticate with Workday: " ++ msg))) ∧
    (∀ status reason j, 400 ≤ status → status < 600 →
      (get_auth_token st now0 now1 (.response status reason j)).result =
        .error (.exception ("Failed to authenticate with Workday: " ++
          httpErrorMsg status reason (authUrl st)))) ∧
    (d.supplier_id = none →
      (create_invoice st now0 now1 authOutc opOutc d).result =
        .error (.keyError "supplier_id")) ∧
    (∀ p, format_invoice d = .ok p →
      (create_invoice st now0 now1 authOutc opOutc d).result =
        .error (.exception ("Failed to create invoice in Workday: " ++
          opFailMsg (invoiceUrl st) opOutc))) ∧
    ((get_invoice_status st now0 now1 authOutc opOutc iid).result =
      .error (.exception ("Failed to get invoice status from Workday: " ++
        opFailMsg (statusUrl st iid) opOutc))) ∧
    (∀ pq, format_payment q = .ok pq →
      (update_invoice_payment st now0 now1 authOutc opOutc iid q).result =
        .error (.exception ("Failed to update invoice payment in Workday: " ++
          opFailMsg (paymentUrl st iid) opOutc))) := by
  have hmiss : cacheCheck st.token st.token_expiry now0 = .ok none := by
    rw [htok]
    rfl
  refine ⟨?_, ?_, ?_, ?_, ?_, ?_⟩
  · intro msg
    simp [get_auth_token, hmiss, authRefresh]
  · intro status reason j h4 h6
    have hrs : raisesForStatus status = true := by
      simp only [raisesForStatus, Bool.and_eq_true, decide_eq_true_eq]
      exact ⟨h4, h6⟩
    simp [get_auth_token, hmiss, authRefresh, hrs]
  · intro hsup
    have hf : format_invoice d = .error (.keyError "supplier_id") := by
      simp [format_invoice, hsup]
    simp [create_invoice, hauth, createTail, hf]
  · intro p hp
    cases opOutc with
    | transportError msg =>
      simp [create_invoice, hauth, createTail, hp, opFailMsg]
    | response status reason text j =>
      obtain ⟨h4, h6⟩ := hfail
      have hrs : raisesForStatus status = true := by
        simp only [raisesForStatus, Bool.and_eq_true, decide_eq_true_eq]
        exact ⟨h4, h6⟩
      simp [create_invoice, hauth, createTail, hp, opFailMsg, hrs]
  · cases opOutc with
    | transportError msg =>
      simp [get_invoice_status, hauth, statusTail, opFailMsg]
    | response status reason text j =>
      obtain ⟨h4, h6⟩ := hfail
      have hrs : raisesForStatus status = true := by
        simp only [raisesForStatus, Bool.and_eq_true, decide_eq_true_eq]
        exact ⟨h4, h6⟩
      simp [get_invoice_status, hauth, statusTail, opFailMsg, hrs]
  · intro pq hpq
    cases opOutc with
    | transportError msg =>
      simp [update_invoice_payment, hauth, paymentTail, hpq, opFailMsg]
    | response status reason text j =>
      obtain ⟨h4, h6⟩ := hfail
      have hrs : raisesForStatus status = true := by
        simp only [raisesForStatus, Bool.and_eq_true, decide_eq_true_eq]
        exact ⟨h4, h6⟩
      simp [update_invoice_payment, hauth, paymentTail, hpq, opFailMsg, hrs]

/-- C3 witness: the amended taxonomy at a concrete failing operation (500). -/
theorem c3_failures_surfaced_witness :
    demoClient.token = none ∧
    (get_auth_token demoClient 100 105 demoAuthOk).result = .ok "tok-1" ∧
    opFails (.response 500 "Internal Server Error" "boom" none) ∧
    ((∀ msg, (get_auth_token demoClient 100 105 (.transportError msg)).result =
      .error (.exception ("Failed to authenticate with Workday: " ++ msg))) ∧
    (∀ status reason j, 400 ≤ status → status < 600 →
      (get_auth_token demoClient 100 105 (.response status reason j)).result =
        .error (.exception ("Failed to authenticate with Workday: " ++
          httpErrorMsg status reason (authUrl demoClient)))) ∧
    (demoInvoice.supplier_id = none →
      (create_invoice demoClient 100 105 demoAuthOk
        (.response 500 "Internal Server Error" "boom" none) demoInvoice).result =
        .error (.keyError "supplier_id")) ∧
    (∀ p, format_invoice demoInvoice = .ok p →
      (create_invoice demoClient 100 105 demoAuthOk
        (.response 500 "Internal Server Error" "boom" none) demoInvoice).result =
        .error (.exception ("Failed to create invoice in Workday: " ++
          opFailMsg (invoiceUrl demoClient) (.response 500 "Internal Server Error" "boom" none)))) ∧
    ((get_invoice_status demoClient 100 105 demoAuthOk
        (.response 500 "Internal Server Error" "boom" none) "INV-ID-1").result =
      .error (.exception ("Failed to get invoice status from Workday: " ++
        opFailMsg (statusUrl demoClient "INV-ID-1")
          (.response 500 "Internal Server Error" "boom" none)))) ∧
    (∀ pq, format_payment demoPayment = .ok pq →
      (update_invoice_payment demoClient 100 105 demoAuthOk
        (.response 500 "Internal Server Error" "boom" none) "INV-ID-1" demoPayment).result =
        .error (.exception ("Failed to update invoice payment in Workday: " ++
          opFailMsg (paymentUrl demoClient "INV-ID-1")
            (.response 500 "Internal Server Error" "boom" none))))) :=
  ⟨rfl, rfl, ⟨by norm_num, by norm_num⟩,
    c3_failures_surfaced demoClient 100 105 demoAuthOk
      (.response 500 "Internal Server Error" "boom" none) demoInvoice demoPayment
      "INV-ID-1" "tok-1" rfl rfl ⟨by norm_num, by norm_num⟩⟩

/-- C9: whenever the cache guard falls through (no raised comparison, no hit)
and the token-endpoint request fails with a transport error or a 4xx/5xx
status — the statuses `raise_for_status` raises for — the handler re-raises
without touching `self.token` or `self.token_expiry`: the state after the call
is exactly the state before it. -/
theorem c9_auth_failure_preserves_state (st : WorkdayAPIntegration) (now0 now1 : Rat)
    (outc : AuthOutcome)
    (hmiss : cacheCheck st.token st.token_expiry now0 = .ok none)
    (hfail : authFails outc) :
    (get_auth_token st now0 now1 outc).state = st ∧
    ∃ m, (get_auth_token st now0 now1 outc).result = .error (.exception m) := by
  cases outc with
  | transportError msg =>
    exact ⟨by simp [get_auth_token, hmiss, authRefresh],
      ⟨"Failed to authenticate with Workday: " ++ msg,
        by simp [get_auth_token, hmiss, authRefresh]⟩⟩
  | response status reason j =>
    obtain ⟨h4, h6⟩ := hfail
    have hrs : raisesForStatus status = true := by
      simp only [raisesForStatus, Bool.and_eq_true, decide_eq_true_eq]
      exact ⟨h4, h6⟩
    exact ⟨by simp [get_auth_token, hmiss, authRefresh, hrs],
      ⟨"Failed to authenticate with Workday: " ++ httpErrorMsg status reason (authUrl st),
        by simp [get_auth_token, hmiss, authRefresh, hrs]⟩⟩

/-- C9 witness: a transport error on a fresh client leaves the state intact. -/
theorem c9_auth_failure_preserves_state_witness :
    cacheCheck demoClient.token demoClient.token_expiry 100 = .ok none ∧
    authFails (.transportError "connection refused") ∧
    ((get_auth_token demoClient 100 105 (.transportError "connection refused")).state =
        demoClient ∧
      ∃ m, (get_auth_token demoClient 100 105 (.transportError "connection refused")).result =
        .error (.exception m)) :=
  ⟨rfl, trivial,
    c9_auth_failure_preserves_state demoClient 100 105 (.transportError "connection refused")
      rfl trivial⟩

lemma authRefresh_events_head (st : WorkdayAPIntegration) (now1 : Rat) (outc : AuthOutcome) :
    (authRefresh st now1 outc).events.head? =
      some (.httpPost (authUrl st) (authHeaders st) authFormBody) := by
  cases outc with
  | transportError msg => rfl
  | response status reason j =>
    by_cases hrs : raisesForStatus status = true
    · simp [authRefresh, hrs]
    · rcases j with _ | ⟨tk, ei⟩
      · simp [authRefresh, hrs]
      · rcases tk with _ | t <;> rcases ei with _ | e <;> simp [authRefresh, hrs]

lemma get_auth_token_events_of_miss (st : WorkdayAPIntegration) (now0 now1 : Rat)
    (outc : AuthOutcome) (hmiss : cacheCheck st.token st.token_expiry now0 = .ok none) :
    (get_auth_token st now0 now1 outc).events = (authRefresh st now1 outc).events := by
  simp [get_auth_token, hmiss]

/-- A request missing one of the fields `create_invoice` reads with a raising
lookup: `supplier_id`, `invoice_number`, `invoice_date`, `total_amount`,
`line_items`, or the `amount` of some line item. -/
def missingInvoiceField (d : InvoiceData) : Prop :=
  d.supplier_id = none ∨ d.invoice_number = none ∨ d.invoice_date = none ∨
  d.total_amount = none ∨ d.line_items = none ∨
  ∃ items, d.line_items = some items ∧ ∃ it ∈ items, it.amount = none

/-- A request missing one of the fields `update_invoice_payment` reads with a
raising lookup: `payment_date`, `payment_method` or `amount`. -/
def missingPaymentField (q : PaymentData) : Prop :=
  q.payment_date = none ∨ q.payment_method = none ∨ q.amount = none

lemma formatLines_missing (cur : String) (items : List LineItemData) :
    ∀ idx, (∃ it ∈ items, it.amount = none) →
      formatLines cur idx items = .error (.keyError "amount") := by
  induction items with
  | nil => intro idx h; simp at h
  | cons it rest ih =>
    intro idx h
    obtain ⟨x, hx, hnone⟩ := h
    cases ha : it.amount with
    | none => simp [formatLines, formatLine, ha]
    | some amt =>
      have hx2 : x ∈ rest := by
        rcases List.mem_cons.mp hx with h1 | h2
        · subst h1
          rw [ha] at hnone
          exact absurd hnone (by simp)
        · exact h2
      simp [formatLines, formatLine_ok cur idx it amt ha, ih (idx + 1) ⟨x, hx2, hnone⟩]

lemma format_invoice_missing (d : InvoiceData) (h : missingInvoiceField d) :
    ∃ k, format_invoice d = .error (.keyError k) := by
  cases hsup : d.supplier_id with
  | none => exact ⟨"supplier_id", by simp [format_invoice, hsup]⟩
  | some sup =>
  cases hnum : d.invoice_number with
  | none => exact ⟨"invoice_number", by simp [format_invoice, hsup, hnum]⟩
  | some num =>
  cases hdate : d.invoice_date with
  | none => exact ⟨"invoice_date", by simp [format_invoice, hsup, hnum, hdate]⟩
  | some date =>
  cases htotal : d.total_amount with
  | none => exact ⟨"total_amount", by simp [format_invoice, hsup, hnum, hdate, htotal]⟩
  | some total =>
  cases hitems : d.line_items with
  | none => exact ⟨"line_items", by simp [format_invoice, hsup, hnum, hdate, htotal, hitems]⟩
  | some items =>
    have hamt : ∃ it ∈ items, it.amount = none := by
      rcases h with h | h | h | h | h | ⟨items2, hi2, hamt⟩
      · rw [hsup] at h; exact absurd h (by simp)
      · rw [hnum] at h; exact absurd h (by simp)
      · rw [hdate] at h; exact absurd h (by simp)
      · rw [htotal] at h; exact absurd h (by simp)
      · rw [hitems] at h; exact absurd h (by simp)
      · rw [hitems] at hi2
        rw [Option.some.inj hi2]
        exact hamt
    exact ⟨"amount", by simp [format_invoice, hsup, hnum, hdate, htotal, hitems,
      formatLines_missing (d.currency.getD "USD") items 0 hamt]⟩

lemma format_payment_missing (q : PaymentData) (h : missingPaymentField q) :
    ∃ k, format_payment q = .error (.keyError k) := by
  cases hd : q.payment_date with
  | none => exact ⟨"payment_date", by simp [format_payment, hd]⟩
  | some date =>
  cases hm : q.payment_method with
  | none => exact ⟨"payment_method", by simp [format_payment, hd, hm]⟩
  | some method =>
  cases ha : q.amount with
  | none => exact ⟨"amount", by simp [format_payment, hd, hm, ha]⟩
  | some amt =>
    rcases h with h | h | h
    · rw [hd] at h; exact absurd h (by simp)
    · rw [hm] at h; exact absurd h (by simp)
    · rw [ha] at h; exact absurd h (by simp)

/-- C10: both `create_invoice` and `update_invoice_payment` call
`get_auth_token` before reading any field of the request: with a fresh client
and a request missing any required field (`supplier_id`, `invoice_number`,
`invoice_date`, `total_amount`, `line_items`, a line item `amount`;
`payment_date`, `payment_method`, `amount`), the trace equals the auth trace
alone (no invoice/payment endpoint call), the first event is the
token-endpoint POST, a successful token acquisition is followed by the
`KeyError` of a missing field, and an auth failure preempts field validation
entirely. -/
theorem c10_auth_precedes_field_validation (st : WorkdayAPIntegration) (now0 now1 : Rat)
    (authOutc : AuthOutcome) (opOutc : OpOutcome) (d : InvoiceData) (q : PaymentData)
    (iid : String)
    (htok : st.token = none) (hinv : missingInvoiceField d)
    (hpay : missingPaymentField q) :
    (create_invoice st now0 now1 authOutc opOutc d).events =
      (get_auth_token st now0 now1 authOutc).events ∧
    (update_invoice_payment st now0 now1 authOutc opOutc iid q).events =
      (get_auth_token st now0 now1 authOutc).events ∧
    (create_invoice st now0 now1 authOutc opOutc d).events.head? =
      some (.httpPost (authUrl st) (authHeaders st) authFormBody) ∧
    (∀ tok, (get_auth_token st now0 now1 authOutc).result = .ok tok →
      (∃ k, (create_invoice st now0 now1 authOutc opOutc d).result =
        .error (.keyError k)) ∧
      (∃ k, (update_invoice_payment st now0 now1 authOutc opOutc iid q).result =
        .error (.keyError k))) ∧
    (∀ e, (get_auth_token st now0 now1 authOutc).result = .error e →
      (create_invoice st now0 now1 authOutc opOutc d).result = .error e ∧
      (update_invoice_payment st now0 now1 authOutc opOutc iid q).result = .error e) := by
  obtain ⟨kinv, hf⟩ := format_invoice_missing d hinv
  obtain ⟨kpay, hfp⟩ := format_payment_missing q hpay
  have hmiss : cacheCheck st.token st.token_expiry now0 = .ok none := by
    rw [htok]
    rfl
  have hce : (create_invoice st now0 now1 authOutc opOutc d).events =
      (get_auth_token st now0 now1 authOutc).events := by
    cases hr : (get_auth_token st now0 now1 authOutc).result with
    | error e => simp [create_invoice, hr]
    | ok tok => simp [create_invoice, hr, createTail, hf]
  have hpe : (update_invoice_payment st now0 now1 authOutc opOutc iid q).events =
      (get_auth_token st now0 now1 authOutc).events := by
    cases hr : (get_auth_token st now0 now1 authOutc).result with
    | error e => simp [update_invoice_payment, hr]
    | ok tok => simp [update_invoice_payment, hr, paymentTail, hfp]
  refine ⟨hce, hpe, ?_, ?_, ?_⟩
  · rw [hce, get_auth_token_events_of_miss st now0 now1 authOutc hmiss,
      authRefresh_events_head]
  · intro tok hr
    exact ⟨⟨kinv, by simp [create_invoice, hr, createTail, hf]⟩,
      ⟨kpay, by simp [update_invoice_payment, hr, paymentTail, hfp]⟩⟩
  · intro e hr
    exact ⟨by simp [create_invoice, hr], by simp [update_invoice_payment, hr]⟩

/-- C10 witness: the conclusion at a fresh client, a request missing
`total_amount`, a payment missing `payment_method`, and a successful auth
outcome. -/
theorem c10_auth_precedes_field_validation_witness :
    demoClient.token = none ∧
    missingInvoiceField { demoInvoice with total_amount := none } ∧
    missingPaymentField { demoPayment with payment_method := none } ∧
    ((create_invoice demoClient 100 105 demoAuthOk (.response 201 "Created" "" (some (.obj [])))
        { demoInvoice with total_amount := none }).events =
      (get_auth_token demoClient 100 105 demoAuthOk).events ∧
    (update_invoice_payment demoClient 100 105 demoAuthOk
        (.response 201 "Created" "" (some (.obj []))) "INV-ID-1"
        { demoPayment with payment_method := none }).events =
      (get_auth_token demoClient 100 105 demoAuthOk).events ∧
    (create_invoice demoClient 100 105 demoAuthOk (.response 201 "Created" "" (some (.obj [])))
        { demoInvoice with total_amount := none }).events.head? =
      some (.httpPost (authUrl demoClient) (authHeaders demoClient) authFormBody) ∧
    (∀ tok, (get_auth_token demoClient 100 105 demoAuthOk).result = .ok tok →
      (∃ k, (create_invoice demoClient 100 105 demoAuthOk
          (.response 201 "Created" "" (some (.obj [])))
          { demoInvoice with total_amount := none }).result = .error (.keyError k)) ∧
      (∃ k, (update_invoice_payment demoClient 100 105 demoAuthOk
          (.response 201 "Created" "" (some (.obj []))) "INV-ID-1"
          { demoPayment with payment_method := none }).result = .error (.keyError k))) ∧
    (∀ e, (get_auth_token demoClient 100 105 demoAuthOk).result = .error e →
      (create_invoice demoClient 100 105 demoAuthOk (.response 201 "Created" "" (some (.obj [])))
          { demoInvoice with total_amount := none }).result = .error e ∧
      (update_invoice_payment demoClient 100 105 demoAuthOk
          (.response 201 "Created" "" (some (.obj []))) "INV-ID-1"
          { demoPayment with payment_method := none }).result = .error e)) :=
  ⟨rfl, Or.inr (Or.inr (Or.inr (Or.inl rfl))), Or.inr (Or.inl rfl),
    c10_auth_precedes_field_validation demoClient 100 105 demoAuthOk
      (.response 201 "Created" "" (some (.obj []))) { demoInvoice with total_amount := none }
      { demoPayment with payment_method := none } "INV-ID-1" rfl
      (Or.inr (Or.inr (Or.inr (Or.inl rfl)))) (Or.inr (Or.inl rfl))⟩

/-- Erase the access-token value of a token-endpoint body, keeping its shape. -/
def scrubTokenBody (b : TokenBody) : TokenBody :=
  ⟨b.access_token.map (fun _ => ""), b.expires_in⟩

/-- Erase the access-token value of a token-endpoint outcome, keeping
everything else (status, reason, message, `expires_in`, key presence). -/
def scrubAuth : AuthOutcome → AuthOutcome
  | .transportError m => .transportError m
  | .response s r j => .response s r (j.map scrubTokenBody)

/-- Whether a result is a normal return rather than a raised exception. -/
def isOkE {α : Type} : Except PyErr α → Bool
  | .ok _ => true
  | .error _ => false

lemma logsOf_append (a b : List Event) : logsOf (a ++ b) = logsOf a ++ logsOf b :=
  List.filter_append ..

lemma cacheCheck_obs (t1 t2 : Option String) (e : Option PyTime) (now : Rat)
    (h : pyTruthyStr t1 = pyTruthyStr t2) :
    (cacheCheck t1 e now = .ok none ∧ cacheCheck t2 e now = .ok none) ∨
    (∃ x1 x2, cacheCheck t1 e now = .ok (some x1) ∧ cacheCheck t2 e now = .ok (some x2)) ∨
    (∃ err, cacheCheck t1 e now = .error err ∧ cacheCheck t2 e now = .error err) := by
  cases t1 with
  | none =>
    cases t2 with
    | none => exact Or.inl ⟨rfl, rfl⟩
    | some s2 =>
      by_cases h2 : s2 = ""
      · subst h2
        refine Or.inl ⟨rfl, ?_⟩
        cases e with
        | none => rfl
        | some exp => simp [cacheCheck]
      · simp [pyTruthyStr, h2] at h
  | some s1 =>
    cases t2 with
    | none =>
      by_cases h1 : s1 = ""
      · subst h1
        refine Or.inl ⟨?_, rfl⟩
        cases e with
        | none => rfl
        | some exp => simp [cacheCheck]
      · simp [pyTruthyStr, h1] at h
    | some s2 =>
      by_cases h1 : s1 = "" <;> by_cases h2 : s2 = ""
      · subst h1; subst h2
        refine Or.inl ⟨?_, ?_⟩ <;> cases e with
        | none => rfl
        | some exp => simp [cacheCheck]
      · simp [pyTruthyStr, h1, h2] at h
      · simp [pyTruthyStr, h1, h2] at h
      · cases e with
        | none => exact Or.inl ⟨rfl, rfl⟩
        | some exp =>
          cases hpt : pyTruthyTime exp with
          | false =>
            exact Or.inl ⟨by simp [cacheCheck, h1, hpt], by simp [cacheCheck, h2, hpt]⟩
          | true =>
            cases hg : pyTimeGt exp (.dt now) with
            | error err =>
              exact Or.inr (Or.inr ⟨err, by simp [cacheCheck, h1, hpt, hg],
                by simp [cacheCheck, h2, hpt, hg]⟩)
            | ok b =>
              cases b with
              | true =>
                exact Or.inr (Or.inl ⟨s1, s2, by simp [cacheCheck, h1, hpt, hg],
                  by simp [cacheCheck, h2, hpt, hg]⟩)
              | false =>
                exact Or.inl ⟨by simp [cacheCheck, h1, hpt, hg],
                  by simp [cacheCheck, h2, hpt, hg]⟩

lemma authRefresh_obs (st1 st2 : WorkdayAPIntegration) (now1 : Rat) (a1 a2 : AuthOutcome)
    (hten : st1.tenant_url = st2.tenant_url) (hauth : scrubAuth a1 = scrubAuth a2) :
    logsOf (authRefresh st1 now1 a1).events = logsOf (authRefresh st2 now1 a2).events ∧
    isOkE (authRefresh st1 now1 a1).result = isOkE (authRefresh st2 now1 a2).result := by
  have hurl : authUrl st1 = authUrl st2 := by rw [authUrl, authUrl, hten]
  cases a1 with
  | transportError m1 =>
    cases a2 with
    | transportError m2 =>
      simp only [scrubAuth, AuthOutcome.transportError.injEq] at hauth
      subst hauth
      simp [authRefresh, logsOf, isLogEvent, isOkE]
    | response s r j => simp [scrubAuth] at hauth
  | response s1 r1 j1 =>
    cases a2 with
    | transportError m => simp [scrubAuth] at hauth
    | response s2 r2 j2 =>
      simp only [scrubAuth, AuthOutcome.response.injEq] at hauth
      obtain ⟨hs, hr, hj⟩ := hauth
      subst hs
      subst hr
      by_cases hrs : raisesForStatus s1 = true
      · simp [authRefresh, hrs, hurl, logsOf, isLogEvent, isOkE]
      · rcases j1 with _ | b1
        · rcases j2 with _ | b2
          · simp [authRefresh, hrs, logsOf, isLogEvent, isOkE]
          · simp at hj
        · rcases j2 with _ | b2
          · simp at hj
          · rcases b1 with ⟨at1, ei1⟩
            rcases b2 with ⟨at2, ei2⟩
            simp only [Option.map_some', scrubTokenBody, Option.some.injEq, TokenBody.mk.injEq]
              at hj
            obtain ⟨hat, hei⟩ := hj
            subst hei
            rcases at1 with _ | t1
            · rcases at2 with _ | t2
              · cases ei1 <;> simp [authRefresh, hrs, logsOf, isLogEvent, isOkE]
              · simp at hat
            · rcases at2 with _ | t2
              · simp at hat
              · cases ei1 <;> simp [authRefresh, hrs, logsOf, isLogEvent, isOkE]

lemma get_auth_token_obs (st1 st2 : WorkdayAPIntegration) (now0 now1 : Rat)
    (a1 a2 : AuthOutcome)
    (hten : st1.tenant_url = st2.tenant_url)
    (htok : pyTruthyStr st1.token = pyTruthyStr st2.token)
    (hexp : st1.token_expiry = st2.token_expiry)
    (hauth : scrubAuth a1 = scrubAuth a2) :
    logsOf (get_auth_token st1 now0 now1 a1).events =
      logsOf (get_auth_token st2 now0 now1 a2).events ∧
    isOkE (get_auth_token st1 now0 now1 a1).result =
      isOkE (get_auth_token st2 now0 now1 a2).result := by
  have h2eq : cacheCheck st2.token st2.token_expiry now0 =
      cacheCheck st2.token st1.token_expiry now0 := by rw [hexp]
  rcases cacheCheck_obs st1.token st2.token st1.token_expiry now0 htok with
    ⟨h1, h2⟩ | ⟨x1, x2, h1, h2⟩ | ⟨err, h1, h2⟩
  · simp only [get_auth_token, h1, h2eq.trans h2]
    exact authRefresh_obs st1 st2 now1 a1 a2 hten hauth
  · simp [get_auth_token, h1, h2eq.trans h2, logsOf, isOkE]
  · simp [get_auth_token, h1, h2eq.trans h2, logsOf, isOkE]

lemma createTail_logs_obs (st1 st2 : WorkdayAPIntegration) (t1 t2 : String) (op : OpOutcome)
    (d : InvoiceData) (hten : st1.tenant_url = st2.tenant_url) :
    logsOf (createTail st1 t1 op d).2 = logsOf (createTail st2 t2 op d).2 := by
  have hurl : invoiceUrl st1 = invoiceUrl st2 := by rw [invoiceUrl, invoiceUrl, hten]
  cases hf : format_invoice d with
  | error e => simp [createTail, hf, logsOf]
  | ok payload =>
    cases op with
    | transportError m => simp [createTail, hf, logsOf, isLogEvent]
    | response s r tx j =>
      by_cases hrs : raisesForStatus s = true
      · simp [createTail, hf, hrs, hurl, logsOf, isLogEvent]
      · rcases j with _ | res
        · simp [createTail, hf, hrs, logsOf, isLogEvent]
        · cases hn : d.invoice_number <;>
            simp [createTail, hf, hrs, hn, logsOf, isLogEvent]

lemma statusTail_logs_obs (st1 st2 : WorkdayAPIntegration) (t1 t2 : String) (op : OpOutcome)
    (iid : String) (hten : st1.tenant_url = st2.tenant_url) :
    logsOf (statusTail st1 t1 op iid).2 = logsOf (statusTail st2 t2 op iid).2 := by
  have hurl : statusUrl st1 iid = statusUrl st2 iid := by rw [statusUrl, statusUrl, hten]
  cases op with
  | transportError m => simp [statusTail, logsOf, isLogEvent]
  | response s r tx j =>
    by_cases hrs : raisesForStatus s = true
    · simp [statusTail, hrs, hurl, logsOf, isLogEvent]
    · rcases j with _ | res <;> simp [statusTail, hrs, logsOf, isLogEvent]

lemma paymentTail_logs_obs (st1 st2 : WorkdayAPIntegration) (t1 t2 : String) (op : OpOutcome)
    (iid : String) (q : PaymentData) (hten : st1.tenant_url = st2.tenant_url) :
    logsOf (paymentTail st1 t1 op iid q).2 = logsOf (paymentTail st2 t2 op iid q).2 := by
  have hurl : paymentUrl st1 iid = paymentUrl st2 iid := by rw [paymentUrl, paymentUrl, hten]
  cases hf : format_payment q with
  | error e => simp [paymentTail, hf, logsOf]
  | ok payload =>
    cases op with
    | transportError m => simp [paymentTail, hf, logsOf, isLogEvent]
    | response s r tx j =>
      by_cases hrs : raisesForStatus s = true
      · simp [paymentTail, hf, hrs, hurl, logsOf, isLogEvent]
      · rcases j with _ | res <;> simp [paymentTail, hf, hrs, logsOf, isLogEvent]

lemma create_invoice_logs_obs (st1 st2 : WorkdayAPIntegration) (now0 now1 : Rat)
    (a1 a2 : AuthOutcome) (op : OpOutcome) (d : InvoiceData)
    (hten : st1.tenant_url = st2.tenant_url)
    (htok : pyTruthyStr st1.token = pyTruthyStr st2.token)
    (hexp : st1.token_expiry = st2.token_expiry)
    (hauth : scrubAuth a1 = scrubAuth a2) :
    logsOf (create_invoice st1 now0 now1 a1 op d).events =
      logsOf (create_invoice st2 now0 now1 a2 op d).events := by
  obtain ⟨hlogs, hok⟩ := get_auth_token_obs st1 st2 now0 now1 a1 a2 hten htok hexp hauth
  cases hr1 : (get_auth_token st1 now0 now1 a1).result with
  | error e1 =>
    cases hr2 : (get_auth_token st2 now0 now1 a2).result with
    | error e2 => simpa [create_invoice, hr1, hr2] using hlogs
    | ok t2 => rw [hr1, hr2] at hok; simp [isOkE] at hok
  | ok t1 =>
    cases hr2 : (get_auth_token st2 now0 now1 a2).result with
    | error e2 => rw [hr1, hr2] at hok; simp [isOkE] at hok
    | ok t2 =>
      simp only [create_invoice, hr1, hr2]
      rw [logsOf_append, logsOf_append, hlogs, createTail_logs_obs st1 st2 t1 t2 op d hten]

lemma get_invoice_status_logs_obs (st1 st2 : WorkdayAPIntegration) (now0 now1 : Rat)
    (a1 a2 : AuthOutcome) (op : OpOutcome) (iid : String)
    (hten : st1.tenant_url = st2.tenant_url)
    (htok : pyTruthyStr st1.token = pyTruthyStr st2.token)
    (hexp : st1.token_expiry = st2.token_expiry)
    (hauth : scrubAuth a1 = scrubAuth a2) :
    logsOf (get_invoice_status st1 now0 now1 a1 op iid).events =
      logsOf (get_invoice_status st2 now0 now1 a2 op iid).events := by
  obtain ⟨hlogs, hok⟩ := get_auth_token_obs st1 st2 now0 now1 a1 a2 hten htok hexp hauth
  cases hr1 : (get_auth_token st1 now0 now1 a1).result with
  | error e1 =>
    cases hr2 : (get_auth_token st2 now0 now1 a2).result with
    | error e2 => simpa [get_invoice_status, hr1, hr2] using hlogs
    | ok t2 => rw [hr1, hr2] at hok; simp [isOkE] at hok
  | ok t1 =>
    cases hr2 : (get_auth_token st2 now0 now1 a2).result with
    | error e2 => rw [hr1, hr2] at hok; simp [isOkE] at hok
    | ok t2 =>
      simp only [get_invoice_status, hr1, hr2]
      rw [logsOf_append, logsOf_append, hlogs, statusTail_logs_obs st1 st2 t1 t2 op iid hten]

lemma update_invoice_payment_logs_obs (st1 st2 : WorkdayAPIntegration) (now0 now1 : Rat)
    (a1 a2 : AuthOutcome) (op : OpOutcome) (iid : String) (q : PaymentData)
    (hten : st1.tenant_url = st2.tenant_url)
    (htok : pyTruthyStr st1.token = pyTruthyStr st2.token)
    (hexp : st1.token_expiry = st2.token_expiry)
    (hauth : scrubAuth a1 = scrubAuth a2) :
    logsOf (update_invoice_payment st1 now0 now1 a1 op iid q).events =
      logsOf (update_invoice_payment st2 now0 now1 a2 op iid q).events := by
  obtain ⟨hlogs, hok⟩ := get_auth_token_obs st1 st2 now0 now1 a1 a2 hten htok hexp hauth
  cases hr1 : (get_auth_token st1 now0 now1 a1).result with
  | error e1 =>
    cases hr2 : (get_auth_token st2 now0 now1 a2).result with
    | error e2 => simpa [update_invoice_payment, hr1, hr2] using hlogs
    | ok t2 => rw [hr1, hr2] at hok; simp [isOkE] at hok
  | ok t1 =>
    cases hr2 : (get_auth_token st2 now0 now1 a2).result with
    | error e2 => rw [hr1, hr2] at hok; simp [isOkE] at hok
    | ok t2 =>
      simp only [update_invoice_payment, hr1, hr2]
      rw [logsOf_append, logsOf_append, hlogs,
        paymentTail_logs_obs st1 st2 t1 t2 op iid q hten]

/-- C8: noninterference of secrets with the log sink.  Take two clients that
may differ arbitrarily in `client_id`, `client_secret` and in the value of the
cached token (same truthiness, same expiry, same tenant), and two
token-endpoint outcomes differing only in the access-token value.  Every
operation then writes exactly the same log records in both runs: the log
output is a function of the non-secret inputs only, so neither the client
secret nor any bearer token value can appear in any log record (a string that
never influences the log output cannot occur in it). -/
theorem c8_logs_independent_of_secret_and_token
    (st1 st2 : WorkdayAPIntegration) (now0 now1 : Rat) (a1 a2 : AuthOutcome)
    (op : OpOutcome) (d : InvoiceData) (q : PaymentData) (iid : String)
    (hten : st1.tenant_url = st2.tenant_url)
    (htok : pyTruthyStr st1.token = pyTruthyStr st2.token)
    (hexp : st1.token_expiry = st2.token_expiry)
    (hauth : scrubAuth a1 = scrubAuth a2) :
    logsOf (get_auth_token st1 now0 now1 a1).events =
      logsOf (get_auth_token st2 now0 now1 a2).events ∧
    logsOf (create_invoice st1 now0 now1 a1 op d).events =
      logsOf (create_invoice st2 now0 now1 a2 op d).events ∧
    logsOf (get_invoice_status st1 now0 now1 a1 op iid).events =
      logsOf (get_invoice_status st2 now0 now1 a2 op iid).events ∧
    logsOf (update_invoice_payment st1 now0 now1 a1 op iid q).events =
      logsOf (update_invoice_payment st2 now0 now1 a2 op iid q).events :=
  ⟨(get_auth_token_obs st1 st2 now0 now1 a1 a2 hten htok hexp hauth).1,
    create_invoice_logs_obs st1 st2 now0 now1 a1 a2 op d hten htok hexp hauth,
    get_invoice_status_logs_obs st1 st2 now0 now1 a1 a2 op iid hten htok hexp hauth,
    update_invoice_payment_logs_obs st1 st2 now0 now1 a1 a2 op iid q hten htok hexp hauth⟩

/-- A client with a different id, secret and cached-token value than
`demoClient with token := some "A"`, all log-invisible. -/
def demoClientB : WorkdayAPIntegration :=
  ⟨"https://t.example.com", "other", "hunter2", some "B", none⟩

/-- C8 witness: two runs with different secrets and token values produce
identical logs on a failing create call. -/
theorem c8_logs_independent_witness :
    ({ demoClient with token := some "A" } : WorkdayAPIntegration).tenant_url =
      demoClientB.tenant_url ∧
    pyTruthyStr ({ demoClient with token := some "A" } : WorkdayAPIntegration).token =
      pyTruthyStr demoClientB.token ∧
    ({ demoClient with token := some "A" } : WorkdayAPIntegration).token_expiry =
      demoClientB.token_expiry ∧
    scrubAuth (.response 200 "OK" (some ⟨some "tokA", some 60⟩)) =
      scrubAuth (.response 200 "OK" (some ⟨some "tokB", some 60⟩)) ∧
    (logsOf (get_auth_token { demoClient with token := some "A" } 100 105
        (.response 200 "OK" (some ⟨some "tokA", some 60⟩))).events =
      logsOf (get_auth_token demoClientB 100 105
        (.response 200 "OK" (some ⟨some "tokB", some 60⟩))).events ∧
    logsOf (create_invoice { demoClient with token := some "A" } 100 105
        (.response 200 "OK" (some ⟨some "tokA", some 60⟩))
        (.response 500 "Internal Server Error" "x" none) demoInvoice).events =
      logsOf (create_invoice demoClientB 100 105
        (.response 200 "OK" (some ⟨some "tokB", some 60⟩))
        (.response 500 "Internal Server Error" "x" none) demoInvoice).events ∧
    logsOf (get_invoice_status { demoClient with token := some "A" } 100 105
        (.response 200 "OK" (some ⟨some "tokA", some 60⟩))
        (.response 500 "Internal Server Error" "x" none) "I1").events =
      logsOf (get_invoice_status demoClientB 100 105
        (.response 200 "OK" (some ⟨some "tokB", some 60⟩))
        (.response 500 "Internal Server Error" "x" none) "I1").events ∧
    logsOf (update_invoice_payment { demoClient with token := some "A" } 100 105
        (.response 200 "OK" (some ⟨some "tokA", some 60⟩))
        (.response 500 "Internal Server Error" "x" none) "I1" demoPayment).events =
      logsOf (update_invoice_payment demoClientB 100 105
        (.response 200 "OK" (some ⟨some "tokB", some 60⟩))
        (.response 500 "Internal Server Error" "x" none) "I1" demoPayment).events) :=
  ⟨rfl, rfl, rfl, rfl,
    c8_logs_independent_of_secret_and_token { demoClient with token := some "A" } demoClientB
      100 105 (.response 200 "OK" (some ⟨some "tokA", some 60⟩))
      (.response 200 "OK" (some ⟨some "tokB", some 60⟩))
      (.response 500 "Internal Server Error" "x" none) demoInvoice demoPayment "I1"
      rfl rfl rfl rfl⟩
